import Mathlib

/-!
Shallow embedding of the weather-lookup service in `weather_service.py`
(class `WeatherService`): the location selector, the weather-code mapper,
the weather formatter and the fetch orchestrator, together with theorems
checking the specification's claims about them.

Conventions of the embedding:
* Python dictionaries coming from the two external APIs are embedded as
  structures whose fields are `Option`-valued exactly where the Python code
  reads them with `dict.get(key, default)`; `none` models an absent key.
* Python numbers are embedded as `ℚ` (integers as `Int`); `round(x)` and
  `round(x, 1)` are embedded by `pyRound` / `round1` below (round half to
  even, as Python's `round` does).
* A Python function that can raise inside the formatter's `try` block is
  embedded with an `Option` result (`none` = the raised exception); the
  orchestrator `get_weather` is embedded with an `Except String` result,
  the `String` being the raised error message.
-/

namespace WeatherForecast

/-- A geocoding result record, as read by the Python code:
`name`, `country_code`, `admin1`, `latitude`, `longitude`, `population`,
`feature_class`.  Fields the code reads with `.get` are `Option`-valued. -/
structure LocationCandidate where
  name : Option String
  country_code : Option String
  admin1 : Option String
  latitude : ℚ
  longitude : ℚ
  population : Option Int
  feature_class : Option String
deriving DecidableEq, Repr

/-- `location_score` from `_select_best_location`:
population (`location.get('population', 0)`), plus 10000 when
`feature_class == 'P'`, plus 5000 when `admin1` is truthy (a non-empty
string). -/
def location_score (location : LocationCandidate) : Int :=
  let population := location.population.getD 0
  let admin_level := location.admin1.getD ""
  let feature_class := location.feature_class.getD ""
  let score := population
  let score := if feature_class = "P" then score + 10000 else score
  let score := if admin_level ≠ "" then score + 5000 else score
  score

/-- Stable insertion into a list that is already sorted by descending
`location_score`: the new element `a` is placed before the first element of
score ≤ its own, hence before later-arriving elements of equal score. -/
def insertByScoreDesc (a : LocationCandidate) :
    List LocationCandidate → List LocationCandidate
  | [] => [a]
  | b :: bs =>
    if location_score a < location_score b then b :: insertByScoreDesc a bs
    else a :: b :: bs

/-- `sorted(results, key=location_score, reverse=True)`: Python's `sorted`
is a stable sort; it is embedded as a stable insertion sort, which computes
the same function (stable sorts are unique). -/
def sortByScoreDesc : List LocationCandidate → List LocationCandidate
  | [] => []
  | x :: xs => insertByScoreDesc x (sortByScoreDesc xs)

/-- `_select_best_location(results, search_city)`: `None` on an empty
result list, otherwise `sorted(results, key=location_score, reverse=True)[0]`.
The `search_city` argument is unused by the Python code's logic. -/
def _select_best_location (results : List LocationCandidate)
    (_search_city : String) : Option LocationCandidate :=
  if results.isEmpty then none
  else (sortByScoreDesc results).head?

/-- Specification-level description of the head of a stable descending
sort: scan the list and keep the earliest element of maximal score (a later
element replaces the current best only when strictly better). -/
def pickFirstMax : List LocationCandidate → Option LocationCandidate
  | [] => none
  | x :: xs =>
    match pickFirstMax xs with
    | none => some x
    | some b => if location_score x < location_score b then some b else some x

lemma insertByScoreDesc_head_cons (a b : LocationCandidate)
    (bs : List LocationCandidate) :
    (insertByScoreDesc a (b :: bs)).head? =
      if location_score a < location_score b then some b else some a := by
  simp only [insertByScoreDesc]
  split <;> rfl

lemma sortByScoreDesc_head_eq_pickFirstMax :
    ∀ l : List LocationCandidate, (sortByScoreDesc l).head? = pickFirstMax l
  | [] => rfl
  | x :: xs => by
    have ih := sortByScoreDesc_head_eq_pickFirstMax xs
    simp only [sortByScoreDesc, pickFirstMax]
    cases hs : sortByScoreDesc xs with
    | nil =>
      rw [hs] at ih
      rw [← ih]
      rfl
    | cons b bs =>
      rw [hs] at ih
      rw [← ih]
      simp only [List.head?]
      exact insertByScoreDesc_head_cons x b bs

lemma pickFirstMax_eq_none_iff :
    ∀ l : List LocationCandidate, pickFirstMax l = none ↔ l = []
  | [] => by simp [pickFirstMax]
  | x :: xs => by
    simp only [pickFirstMax]
    cases hx : pickFirstMax xs with
    | none => simp
    | some b =>
      split
      · simp
      · split <;> simp

/-- The element chosen by `pickFirstMax` splits the list into a prefix of
strictly smaller scores, itself, and a suffix of no larger scores. -/
lemma pickFirstMax_spec :
    ∀ l : List LocationCandidate, l ≠ [] →
      ∃ c l₁ l₂, pickFirstMax l = some c ∧ l = l₁ ++ c :: l₂ ∧
        (∀ x ∈ l₁, location_score x < location_score c) ∧
        (∀ x ∈ l, location_score x ≤ location_score c)
  | [], h => absurd rfl h
  | x :: xs, _ => by
    by_cases hxs : xs = []
    · subst hxs
      refine ⟨x, [], [], by simp [pickFirstMax], by simp, by simp, ?_⟩
      intro y hy
      simp only [List.mem_singleton] at hy
      exact le_of_eq (congrArg location_score hy)
    · obtain ⟨c, l₁, l₂, hc, hsplit, hbefore, hmax⟩ := pickFirstMax_spec xs hxs
      by_cases hlt : location_score x < location_score c
      · refine ⟨c, x :: l₁, l₂, ?_, by rw [hsplit]; rfl, ?_, ?_⟩
        · simp [pickFirstMax, hc, hlt]
        · intro y hy
          rcases List.mem_cons.mp hy with hy | hy
          · exact hy ▸ hlt
          · exact hbefore y hy
        · intro y hy
          rcases List.mem_cons.mp hy with hy | hy
          · exact hy ▸ le_of_lt hlt
          · exact hmax y hy
      · refine ⟨x, [], xs, ?_, by simp, by simp, ?_⟩
        · simp [pickFirstMax, hc, hlt]
        · intro y hy
          rcases List.mem_cons.mp hy with hy | hy
          · exact le_of_eq (congrArg location_score hy)
          · exact le_trans (hmax y hy) (not_lt.mp hlt)

lemma select_best_spec (results : List LocationCandidate)
    (search_city : String) (h : results ≠ []) :
    ∃ c l₁ l₂, _select_best_location results search_city = some c ∧
      results = l₁ ++ c :: l₂ ∧
      (∀ x ∈ l₁, location_score x < location_score c) ∧
      (∀ x ∈ results, location_score x ≤ location_score c) := by
  obtain ⟨c, l₁, l₂, hc, hsplit, hbefore, hmax⟩ := pickFirstMax_spec results h
  refine ⟨c, l₁, l₂, ?_, hsplit, hbefore, hmax⟩
  simp only [_select_best_location, List.isEmpty_eq_true]
  rw [if_neg h, sortByScoreDesc_head_eq_pickFirstMax, hc]

/-- The static `weather_map` dictionary of `_get_weather_description`,
entry for entry: code ↦ (description, main_type, icon_code). -/
def weather_map : List (Int × (String × String × String)) := [
  (0, ("Clear sky", "Clear", "01d")),
  (1, ("Mainly clear", "Clear", "01d")),
  (2, ("Partly cloudy", "Clouds", "02d")),
  (3, ("Overcast", "Clouds", "03d")),
  (45, ("Fog", "Mist", "50d")),
  (48, ("Depositing rime fog", "Mist", "50d")),
  (51, ("Light drizzle", "Drizzle", "09d")),
  (53, ("Moderate drizzle", "Drizzle", "09d")),
  (55, ("Dense drizzle", "Drizzle", "09d")),
  (56, ("Light freezing drizzle", "Drizzle", "09d")),
  (57, ("Dense freezing drizzle", "Drizzle", "09d")),
  (61, ("Slight rain", "Rain", "10d")),
  (63, ("Moderate rain", "Rain", "10d")),
  (65, ("Heavy rain", "Rain", "10d")),
  (66, ("Light freezing rain", "Rain", "10d")),
  (67, ("Heavy freezing rain", "Rain", "10d")),
  (71, ("Slight snow fall", "Snow", "13d")),
  (73, ("Moderate snow fall", "Snow", "13d")),
  (75, ("Heavy snow fall", "Snow", "13d")),
  (77, ("Snow grains", "Snow", "13d")),
  (80, ("Slight rain showers", "Rain", "09d")),
  (81, ("Moderate rain showers", "Rain", "09d")),
  (82, ("Violent rain showers", "Rain", "09d")),
  (85, ("Slight snow showers", "Snow", "13d")),
  (86, ("Heavy snow showers", "Snow", "13d")),
  (95, ("Thunderstorm", "Thunderstorm", "11d")),
  (96, ("Thunderstorm with slight hail", "Thunderstorm", "11d")),
  (99, ("Thunderstorm with heavy hail", "Thunderstorm", "11d"))]

/-- `_get_weather_description(weather_code)`:
`weather_map.get(weather_code, ("Unknown", "Unknown", "01d"))`. -/
def _get_weather_description (weather_code : Int) : String × String × String :=
  (weather_map.lookup weather_code).getD ("Unknown", "Unknown", "01d")

/-- Python's `round(x)` on an exact value: round half to even. -/
def pyRound (q : ℚ) : Int :=
  let f := ⌊q⌋
  if q - f < 1 / 2 then f
  else if (1 : ℚ) / 2 < q - f then f + 1
  else if f % 2 = 0 then f else f + 1

/-- Python's `round(x, 1)` on an exact value: round to one decimal,
half to even. -/
def round1 (q : ℚ) : ℚ := (pyRound (q * 10) : ℚ) / 10

/-- The `current_weather` record of the provider payload; every field the
code reads with `.get(key, 0)`. -/
structure CurrentWeather where
  temperature : Option ℚ
  windspeed : Option ℚ
  winddirection : Option ℚ
  weathercode : Option Int
deriving DecidableEq, Repr

/-- The `hourly` record of the provider payload: three series, each a list
whose index 0 is the current-hour value; `none` models an absent key. -/
structure HourlyData where
  relative_humidity_2m : Option (List ℚ)
  surface_pressure : Option (List ℚ)
  visibility : Option (List ℚ)
deriving DecidableEq, Repr

/-- The raw weather payload `raw_data`: the keys `_format_weather_data`
reads with `.get`.  `current_weather := none` models a payload that lacks
the current-weather record (`raw_data.get('current_weather', {})` then
yields the empty dict, embedded as the all-`none` record); `hourly := none`
models an absent or empty (falsy) `hourly` dict. -/
structure RawData where
  current_weather : Option CurrentWeather
  hourly : Option HourlyData
deriving DecidableEq, Repr

/-- The formatted dictionary returned by `_format_weather_data`. -/
structure WeatherReport where
  city : String
  country : String
  region : String
  temperature : Int
  feels_like : Int
  description : String
  main : String
  humidity : Int
  pressure : Int
  wind_speed : ℚ
  wind_direction : ℚ
  icon : String
  visibility : ℚ
deriving DecidableEq, Repr

/-- The dictionary literal built at the end of `_format_weather_data`,
given the three current-hour values computed before it. -/
def mkReport (current : CurrentWeather)
    (current_humidity current_pressure current_visibility : ℚ)
    (location : LocationCandidate) : WeatherReport :=
  let weather_code := current.weathercode.getD 0
  let d := _get_weather_description weather_code
  { city := location.name.getD "Unknown"
    country := location.country_code.getD ""
    region := location.admin1.getD ""
    temperature := pyRound (current.temperature.getD 0)
    feels_like := pyRound (current.temperature.getD 0)
    description := d.1
    main := d.2.1
    humidity := pyRound current_humidity
    pressure := pyRound current_pressure
    wind_speed := round1 (current.windspeed.getD 0 / 3.6)
    wind_direction := current.winddirection.getD 0
    icon := d.2.2
    visibility := round1 current_visibility }

/-- `_format_weather_data(raw_data, location)`.  The humidity, pressure and
visibility values start at 0 and are recomputed only when `hourly` is
truthy; `hourly.get(series, [0])[0]` raises `IndexError` (hence the
function's `except` turns it into an error, embedded as `none`) exactly
when the series is present but empty, while the visibility expression is
guarded by the truthiness test `if hourly.get('visibility')` and therefore
never raises. -/
def _format_weather_data (raw_data : RawData) (location : LocationCandidate) :
    Option WeatherReport :=
  let current := raw_data.current_weather.getD ⟨none, none, none, none⟩
  match raw_data.hourly with
  | none => some (mkReport current 0 0 0 location)
  | some hourly =>
    match (hourly.relative_humidity_2m.getD [0]).head?,
          (hourly.surface_pressure.getD [0]).head? with
    | some current_humidity, some current_pressure =>
      let current_visibility : ℚ :=
        match hourly.visibility with
        | some (v :: _) => v / 1000
        | _ => 0
      some (mkReport current current_humidity current_pressure
        current_visibility location)
    | _, _ => none

/-- Outcome of one outbound `requests.get` call: the three request
exceptions the orchestrator catches, or a response with a status code and
a parsed JSON body. -/
inductive ApiResult (α : Type) where
  | timeout
  | connectionError
  | requestError
  | response (status : Int) (body : α)
deriving DecidableEq, Repr

/-- Body of the geocoding response: `geocoding_data.get('results')` is
falsy when the key is absent (`none`) or the list is empty. -/
structure GeocodingData where
  results : Option (List LocationCandidate)
deriving DecidableEq, Repr

/-- `get_weather(city)`, embedded as a pure function of the two outbound
call outcomes (geocoding first, then the weather request).  `Except.ok`
is a normal return (`Except.ok none` = the Python `return None`, the
"no match" outcome); `Except.error msg` is a raised exception carrying the
message the Python code raises. -/
def get_weather (city : String) (geoResp : ApiResult GeocodingData)
    (weatherResp : ApiResult RawData) : Except String (Option WeatherReport) :=
  match geoResp with
  | .timeout => .error "Request timeout. Please try again."
  | .connectionError =>
    .error "Connection error. Please check your internet connection."
  | .requestError => .error "Network error occurred. Please try again."
  | .response status geocoding_data =>
    if status ≠ 200 then .error "Failed to get location coordinates"
    else
      match geocoding_data.results with
      | none => .ok none
      | some [] => .ok none
      | some results =>
        match _select_best_location results city with
        | none => .ok none
        | some location =>
          match weatherResp with
          | .timeout => .error "Request timeout. Please try again."
          | .connectionError =>
            .error "Connection error. Please check your internet connection."
          | .requestError => .error "Network error occurred. Please try again."
          | .response wstatus weather_data =>
            if wstatus = 200 then
              match _format_weather_data weather_data location with
              | some report => .ok (some report)
              | none => .error "Error processing weather data"
            else .error ("Weather API returned status code " ++ toString wstatus)

/-- Every accepted reading produces exactly the `mkReport` dictionary, and
the three current-hour values are characterized by the `hourly` record. -/
lemma format_some_exists_mk (raw : RawData) (loc : LocationCandidate)
    (r : WeatherReport) (h : _format_weather_data raw loc = some r) :
    ∃ ch cp cv,
      r = mkReport (raw.current_weather.getD ⟨none, none, none, none⟩)
        ch cp cv loc ∧
      (raw.hourly = none → ch = 0 ∧ cp = 0 ∧ cv = 0) ∧
      (∀ hd, raw.hourly = some hd →
        (hd.relative_humidity_2m.getD [0]).head? = some ch ∧
        (hd.surface_pressure.getD [0]).head? = some cp ∧
        cv = match hd.visibility with
          | some (v :: _) => v / 1000
          | _ => 0) := by
  obtain ⟨cw, hourly⟩ := raw
  cases hourly with
  | none =>
    refine ⟨0, 0, 0, (Option.some.inj h).symm, fun _ => ⟨rfl, rfl, rfl⟩,
      fun hd hhd => Option.noConfusion hhd⟩
  | some hd =>
    simp only [_format_weather_data] at h
    cases hch : (hd.relative_humidity_2m.getD [0]).head? with
    | none =>
      rw [hch] at h
      cases hcp : (hd.surface_pressure.getD [0]).head? with
      | none => rw [hcp] at h; exact Option.noConfusion h
      | some cp => rw [hcp] at h; exact Option.noConfusion h
    | some ch =>
      rw [hch] at h
      cases hcp : (hd.surface_pressure.getD [0]).head? with
      | none => rw [hcp] at h; exact Option.noConfusion h
      | some cp =>
        rw [hcp] at h
        refine ⟨ch, cp, _, (Option.some.inj h).symm,
          fun hn => Option.noConfusion hn, fun hd2 hhd2 => ?_⟩
        obtain rfl : hd = hd2 := Option.some.inj hhd2
        exact ⟨hch, hcp, rfl⟩

/-- Claim C1 counterexample: a provider payload that lacks the
current-weather record entirely does NOT make `_format_weather_data`
signal an error; it returns a zero-filled report. -/
theorem claim_C1_counterexample :
    _format_weather_data ⟨none, none⟩ ⟨none, none, none, 0, 0, none, none⟩ =
      some ⟨"Unknown", "", "", 0, 0, "Clear sky", "Clear", 0, 0, 0, 0,
        "01d", 0⟩ := by
  norm_num [_format_weather_data, mkReport, round1, pyRound,
    _get_weather_description, weather_map]

/-- Claim C1 (amended): for every location, the structurally absent raw
reading (the payload lacking the current-weather record and any hourly
record) does not make the Weather Formatter signal a formatting error:
the formatter returns the zero-filled WeatherReport for it, so zero-filled
data does reach the caller. -/
theorem claim_C1_amended (loc : LocationCandidate) :
    _format_weather_data ⟨none, none⟩ loc =
      some (mkReport ⟨none, none, none, none⟩ 0 0 0 loc) ∧
    (mkReport ⟨none, none, none, none⟩ 0 0 0 loc).temperature = 0 ∧
    (mkReport ⟨none, none, none, none⟩ 0 0 0 loc).feels_like = 0 ∧
    (mkReport ⟨none, none, none, none⟩ 0 0 0 loc).wind_speed = 0 ∧
    (mkReport ⟨none, none, none, none⟩ 0 0 0 loc).humidity = 0 ∧
    (mkReport ⟨none, none, none, none⟩ 0 0 0 loc).pressure = 0 ∧
    (mkReport ⟨none, none, none, none⟩ 0 0 0 loc).visibility = 0 ∧
    (mkReport ⟨none, none, none, none⟩ 0 0 0 loc).wind_direction = 0 := by
  refine ⟨rfl, ?_, ?_, ?_, ?_, ?_, ?_, ?_⟩ <;>
    norm_num [mkReport, round1, pyRound]

/-- Claim C2: the Location Selector's score is the candidate's population
(default 0), plus 10000 when its feature class is the populated-place code
P, plus 5000 when its admin region is present and non-empty; on the
two-candidate Springfield input the selector picks the second candidate. -/
theorem claim_C2 :
    (∀ c, location_score c =
      c.population.getD 0 +
      (if c.feature_class.getD "" = "P" then 10000 else 0) +
      (if c.admin1.getD "" ≠ "" then 5000 else 0)) ∧
    _select_best_location
      [⟨some "Springfield", none, some "", 0, 0, some 2000, some "P"⟩,
       ⟨some "Springfield", none, some "Illinois", 0, 0, some 150000,
        some "P"⟩] "Springfield" =
      some ⟨some "Springfield", none, some "Illinois", 0, 0, some 150000,
        some "P"⟩ := by
  constructor
  · intro c
    simp only [location_score]
    split_ifs <;> ring
  · decide

/-- Claim C3: on every non-empty candidate list the Location Selector
returns a member of the list whose score is ≥ every member's score. -/
theorem claim_C3 (results : List LocationCandidate) (city : String)
    (h : results ≠ []) :
    ∃ c, _select_best_location results city = some c ∧ c ∈ results ∧
      ∀ x ∈ results, location_score x ≤ location_score c := by
  obtain ⟨c, l₁, l₂, hc, hsplit, _, hmax⟩ := select_best_spec results city h
  exact ⟨c, hc, by rw [hsplit]; simp, hmax⟩

/-- Witness for C3 at the two-candidate Springfield input. -/
theorem claim_C3_witness :
    ∃ c, _select_best_location
      [⟨some "Springfield", none, some "", 0, 0, some 2000, some "P"⟩,
       ⟨some "Springfield", none, some "Illinois", 0, 0, some 150000,
        some "P"⟩] "Springfield" = some c ∧
      c ∈ [⟨some "Springfield", none, some "", 0, 0, some 2000, some "P"⟩,
       ⟨some "Springfield", none, some "Illinois", 0, 0, some 150000,
        some "P"⟩] ∧
      ∀ x ∈ [⟨some "Springfield", none, some "", 0, 0, some 2000,
        some "P"⟩,
       ⟨some "Springfield", none, some "Illinois", 0, 0, some 150000,
        some "P"⟩], location_score x ≤ location_score c :=
  claim_C3 _ "Springfield" (by decide)

/-- Claim C4: the Weather Code Mapper returns exactly the listed triple for
every code in the static table (in particular 95 ↦ Thunderstorm), and the
fallback triple for every code absent from the table. -/
theorem claim_C4 :
    (∀ c v, weather_map.lookup c = some v → _get_weather_description c = v) ∧
    _get_weather_description 95 = ("Thunderstorm", "Thunderstorm", "11d") ∧
    (∀ c, weather_map.lookup c = none →
      _get_weather_description c = ("Unknown", "Unknown", "01d")) := by
  refine ⟨?_, rfl, ?_⟩
  · intro c v hv
    simp [_get_weather_description, hv]
  · intro c hv
    simp [_get_weather_description, hv]

/-- Witness for C4: a code in the table and a code absent from it. -/
theorem claim_C4_witness :
    _get_weather_description 0 = ("Clear sky", "Clear", "01d") ∧
    _get_weather_description 7 = ("Unknown", "Unknown", "01d") :=
  ⟨claim_C4.1 0 ("Clear sky", "Clear", "01d") rfl, claim_C4.2.2 7 rfl⟩

/-- Claim C5: the Weather Formatter converts wind speed from km/h to m/s by
dividing by 3.6 rounded to one decimal, and visibility from meters to km by
dividing by 1000 rounded to one decimal; a raw wind speed of 36 formats to
exactly 10 and a raw visibility of 10000 formats to exactly 10. -/
theorem claim_C5 :
    (∀ raw loc r, _format_weather_data raw loc = some r →
      r.wind_speed = round1
        ((raw.current_weather.getD ⟨none, none, none, none⟩).windspeed.getD 0
          / 3.6)) ∧
    (∀ raw loc r hd v vs, raw.hourly = some hd →
      hd.visibility = some (v :: vs) →
      _format_weather_data raw loc = some r →
      r.visibility = round1 (v / 1000)) ∧
    (∀ loc, ∃ r,
      _format_weather_data ⟨some ⟨none, some 36, none, none⟩,
        some ⟨none, none, some [10000]⟩⟩ loc = some r ∧
      r.wind_speed = 10 ∧ r.visibility = 10) := by
  refine ⟨?_, ?_, ?_⟩
  · intro raw loc r h
    obtain ⟨ch, cp, cv, rfl, -, -⟩ := format_some_exists_mk raw loc r h
    rfl
  · intro raw loc r hd v vs hh hv h
    obtain ⟨ch, cp, cv, rfl, -, hsome⟩ := format_some_exists_mk raw loc r h
    obtain ⟨-, -, hcv⟩ := hsome hd hh
    rw [hv] at hcv
    show round1 cv = round1 (v / 1000)
    rw [hcv]
  · intro loc
    refine ⟨mkReport ⟨none, some 36, none, none⟩ 0 0 (10000 / 1000) loc,
      rfl, ?_, ?_⟩
    · show round1 ((36 : ℚ) / 3.6) = 10
      norm_num [round1, pyRound]
    · show round1 ((10000 : ℚ) / 1000) = 10
      norm_num [round1, pyRound]

/-- Witness for C5: the wind-speed conversion at a concrete accepted
reading with raw wind speed 36. -/
theorem claim_C5_witness :
    (mkReport ⟨none, some 36, none, none⟩ 0 0 (10000 / 1000)
      ⟨none, none, none, 0, 0, none, none⟩).wind_speed =
      round1 ((36 : ℚ) / 3.6) :=
  claim_C5.1 ⟨some ⟨none, some 36, none, none⟩,
    some ⟨none, none, some [10000]⟩⟩ ⟨none, none, none, 0, 0, none, none⟩
    (mkReport ⟨none, some 36, none, none⟩ 0 0 (10000 / 1000)
      ⟨none, none, none, 0, 0, none, none⟩) rfl

/-- Claim C6: in every reading the Weather Formatter accepts, each missing
numeric field (temperature, wind speed, wind direction, humidity series,
pressure series, visibility series) is defaulted to 0 before conversion and
rounding, and a reading whose numeric fields are all missing is still
formatted into a report. -/
theorem claim_C6 :
    (∀ raw loc r, _format_weather_data raw loc = some r →
      ((raw.current_weather.getD ⟨none, none, none, none⟩).temperature = none
        → r.temperature = 0) ∧
      ((raw.current_weather.getD ⟨none, none, none, none⟩).windspeed = none
        → r.wind_speed = 0) ∧
      ((raw.current_weather.getD ⟨none, none, none, none⟩).winddirection
        = none → r.wind_direction = 0) ∧
      ((∀ hd, raw.hourly = some hd → hd.relative_humidity_2m = none)
        → r.humidity = 0) ∧
      ((∀ hd, raw.hourly = some hd → hd.surface_pressure = none)
        → r.pressure = 0) ∧
      ((∀ hd, raw.hourly = some hd → hd.visibility = none)
        → r.visibility = 0)) ∧
    (∀ wc loc, ∃ r, _format_weather_data
      ⟨some ⟨none, none, none, wc⟩, some ⟨none, none, none⟩⟩ loc
        = some r) := by
  constructor
  · intro raw loc r h
    obtain ⟨ch, cp, cv, rfl, hnone, hsome⟩ := format_some_exists_mk raw loc r h
    refine ⟨?_, ?_, ?_, ?_, ?_, ?_⟩
    · intro ht
      show pyRound _ = 0
      rw [ht]
      norm_num [pyRound]
    · intro hw
      show round1 _ = 0
      rw [hw]
      norm_num [round1, pyRound]
    · intro hw
      show Option.getD _ 0 = 0
      rw [hw]
      rfl
    · intro hm
      have hch : ch = 0 := by
        cases hh : raw.hourly with
        | none => exact (hnone hh).1
        | some hd =>
          have := (hsome hd hh).1
          rw [hm hd hh] at this
          exact (Option.some.inj this).symm
      show pyRound ch = 0
      rw [hch]
      norm_num [pyRound]
    · intro hm
      have hcp : cp = 0 := by
        cases hh : raw.hourly with
        | none => exact (hnone hh).2.1
        | some hd =>
          have := (hsome hd hh).2.1
          rw [hm hd hh] at this
          exact (Option.some.inj this).symm
      show pyRound cp = 0
      rw [hcp]
      norm_num [pyRound]
    · intro hm
      have hcv : cv = 0 := by
        cases hh : raw.hourly with
        | none => exact (hnone hh).2.2
        | some hd =>
          have := (hsome hd hh).2.2
          rw [hm hd hh] at this
          exact this
      show round1 cv = 0
      rw [hcv]
      norm_num [round1, pyRound]
  · intro wc loc
    exact ⟨mkReport ⟨none, none, none, wc⟩ 0 0 0 loc, rfl⟩

/-- Witness for C6: the all-fields-missing reading is accepted and its
temperature is defaulted to 0. -/
theorem claim_C6_witness :
    (mkReport ⟨none, none, none, none⟩ 0 0 0
      ⟨none, none, none, 0, 0, none, none⟩).temperature = 0 :=
  (claim_C6.1 ⟨none, none⟩ ⟨none, none, none, 0, 0, none, none⟩
    (mkReport ⟨none, none, none, none⟩ 0 0 0
      ⟨none, none, none, 0, 0, none, none⟩) rfl).1 rfl

/-- Claim C7: when the geocoder responds with zero candidates (an absent or
empty results list), the orchestrator returns the "no match" outcome
`Except.ok none` — a normal return, never an `Except.error` — for every
outcome of the weather request. -/
theorem claim_C7 (city : String) (wresp : ApiResult RawData) :
    get_weather city (.response 200 ⟨some []⟩) wresp = .ok none ∧
    get_weather city (.response 200 ⟨none⟩) wresp = .ok none ∧
    ∀ msg, get_weather city (.response 200 ⟨some []⟩) wresp ≠ .error msg := by
  refine ⟨rfl, rfl, ?_⟩
  intro msg h
  exact Except.noConfusion h

/-- Witness for C7 at the city from the specification's scenario, with a
weather request that would have timed out. -/
theorem claim_C7_witness :
    get_weather "Xyzzyplace123" (.response 200 ⟨some []⟩) .timeout
      = .ok none :=
  (claim_C7 "Xyzzyplace123" .timeout).1

/-- Claim C8: the Location Selector returns no selection on the empty
candidate sequence, and exactly one selected candidate on every non-empty
sequence. -/
theorem claim_C8 (results : List LocationCandidate) (city : String)
    (h : results ≠ []) :
    _select_best_location [] city = none ∧
    ∃ c, _select_best_location results city = some c := by
  refine ⟨rfl, ?_⟩
  obtain ⟨c, -, -, hc, -⟩ := select_best_spec results city h
  exact ⟨c, hc⟩

/-- Witness for C8 at a one-candidate list. -/
theorem claim_C8_witness :
    _select_best_location [] "London" = none ∧
    ∃ c, _select_best_location [⟨none, none, none, 0, 0, none, none⟩]
      "London" = some c :=
  claim_C8 [⟨none, none, none, 0, 0, none, none⟩] "London" (by decide)

/-- Claim C9: on every non-empty candidate sequence the Location Selector
returns the earliest candidate attaining the maximum score: the selected
candidate splits the input into a prefix of strictly smaller scores,
itself, and a suffix of no larger scores (ties broken by original order
under the stable descending sort). -/
theorem claim_C9 (results : List LocationCandidate) (city : String)
    (h : results ≠ []) :
    ∃ c l₁ l₂, _select_best_location results city = some c ∧
      results = l₁ ++ c :: l₂ ∧
      (∀ x ∈ l₁, location_score x < location_score c) ∧
      (∀ x ∈ results, location_score x ≤ location_score c) :=
  select_best_spec results city h

/-- Witness for C9 at a two-candidate tie (both score 100). -/
theorem claim_C9_witness :
    ∃ c l₁ l₂, _select_best_location
      [⟨some "A", none, none, 0, 0, some 100, none⟩,
       ⟨some "B", none, none, 0, 0, some 100, none⟩] "Springfield"
        = some c ∧
      [⟨some "A", none, none, 0, 0, some 100, none⟩,
       ⟨some "B", none, none, 0, 0, some 100, none⟩] = l₁ ++ c :: l₂ ∧
      (∀ x ∈ l₁, location_score x < location_score c) ∧
      (∀ x ∈ [⟨some "A", none, none, 0, 0, some 100, none⟩,
        ⟨some "B", none, none, 0, 0, some 100, none⟩],
        location_score x ≤ location_score c) :=
  claim_C9 _ "Springfield" (by decide)

/-- Claim C10: in every report the Weather Formatter produces, the
feels_like field equals the temperature field. -/
theorem claim_C10 (raw : RawData) (loc : LocationCandidate)
    (r : WeatherReport) (h : _format_weather_data raw loc = some r) :
    r.feels_like = r.temperature := by
  obtain ⟨ch, cp, cv, rfl, -, -⟩ := format_some_exists_mk raw loc r h
  rfl

/-- Witness for C10 at the empty payload. -/
theorem claim_C10_witness :
    (mkReport ⟨none, none, none, none⟩ 0 0 0
      ⟨none, none, none, 0, 0, none, none⟩).feels_like =
    (mkReport ⟨none, none, none, none⟩ 0 0 0
      ⟨none, none, none, 0, 0, none, none⟩).temperature :=
  claim_C10 ⟨none, none⟩ ⟨none, none, none, 0, 0, none, none⟩
    (mkReport ⟨none, none, none, none⟩ 0 0 0
      ⟨none, none, none, 0, 0, none, none⟩) rfl

end WeatherForecast
